import Mathlib

/-!
Verification of the bulk/batch operation subsystem of the `bloomy` client
library: the item validator `_validate_bulk_item`, the sequential bulk
executor `_process_bulk_sync`, the concurrent bulk executor
`_process_bulk_async` (with its semaphore discipline), and the lazy
identity resolver `get_user_id`.

Python effects are embedded as values: a code path that may raise is a
function into `Except String _` (the `String` is the stringified
exception message `str(e)`), and the nondeterministic outcome of a remote
call is a parameter of the model.
-/

namespace Bloomy

/-- A field value stored in a bulk item dictionary. -/
inductive Val where
  | s (v : String)
  | n (v : Int)
deriving DecidableEq, Repr

/-- A bulk item: a Python `dict[str, Any]` from field name to value.
A stored value of `none` models the Python value `None`; an absent key has
no entry at all. -/
abbrev Item := List (String × Option Val)

/-- Model of `item_data.get(field)`: `none` when the key is absent or its stored
value is Python `None`, `some v` otherwise (so an empty string `""` or the
number `0` yields `some _`). -/
def dictGet (item_data : Item) (field : String) : Option Val :=
  match item_data.lookup field with
  | none => none
  | some v => v

/-- Model of `AbstractOperations._validate_bulk_item`
(src/bloomy/utils/abstract_operations.py, lines 53-68): iterate
`required_fields` in order and raise `ValueError(f"{field} is required")`
at the first field whose `item_data.get(field)` is `None`. -/
def validateBulkItem (item_data : Item) (required_fields : List String) :
    Except String Unit :=
  match required_fields with
  | [] => .ok ()
  | field :: rest =>
    if (dictGet item_data field).isNone then .error (field ++ " is required")
    else validateBulkItem item_data rest

/-- Modelled from the spec: the `bloomy.models` module is imported by the
executors but is not among the provided sources. Spec section 3:
`BulkCreateError`: `{index: non-negative integer, input_data: the original
BulkItem, error: human-readable message}`. -/
structure BulkCreateError where
  index : Nat
  input_data : Item
  error : String
deriving DecidableEq, Repr

/-- Modelled from the spec: the `bloomy.models` module is imported by the
executors but is not among the provided sources. Spec section 3:
`BulkCreateResult<T>`: `{successful: ordered sequence of T, failed:
ordered sequence of BulkCreateError}`. -/
structure BulkCreateResult (T : Type) where
  successful : List T
  failed : List BulkCreateError
deriving DecidableEq, Repr

variable {T : Type}

/-- The body of the per-item `try` block shared by both executors:
validate, then call `create_func`; the first raised exception (from
validation or from `create_func`) is the `.error` message.  In the source
`create_func` receives only `item_data`; the extra `index` argument models
that each invocation is a distinct remote call whose outcome may differ
between positions of the batch (network nondeterminism). -/
def itemOutcome (create_func : Nat → Item → Except String T)
    (required_fields : List String) (index : Nat) (item_data : Item) :
    Except String T :=
  match validateBulkItem item_data required_fields with
  | .error e => .error e
  | .ok _ => create_func index item_data

/-- The loop of `AbstractOperations._process_bulk_sync`
(src/bloomy/utils/abstract_operations.py, lines 87-100), processing the
items whose enumeration starts at `index`: validate and create each item
in order; a success is appended to `successful`, any exception `e` is
caught and appended to `failed` as
`BulkCreateError(index=index, input_data=item_data, error=str(e))`. -/
def processBulkSyncFrom (create_func : Nat → Item → Except String T)
    (required_fields : List String) : Nat → List Item → BulkCreateResult T
  | _, [] => ⟨[], []⟩
  | index, item_data :: rest =>
    let r := processBulkSyncFrom create_func required_fields (index + 1) rest
    match itemOutcome create_func required_fields index item_data with
    | .ok created => ⟨created :: r.successful, r.failed⟩
    | .error e => ⟨r.successful, ⟨index, item_data, e⟩ :: r.failed⟩

/-- Model of `AbstractOperations._process_bulk_sync`
(src/bloomy/utils/abstract_operations.py, lines 70-100). -/
def processBulkSync (items : List Item)
    (create_func : Nat → Item → Except String T)
    (required_fields : List String) : BulkCreateResult T :=
  processBulkSyncFrom create_func required_fields 0 items

/-- The inner coroutine `create_single` of
`AsyncBaseOperations._process_bulk_async`
(src/bloomy/utils/async_base_operations.py, lines 94-106): validate and
create under the semaphore, returning `(index, created)` on success and
`(index, BulkCreateError(index=index, input_data=item_data, error=str(e)))`
on any exception.  `Sum.inr` plays the role of the runtime
`isinstance(result, BulkCreateError)` tag. -/
def createSingle (create_func : Nat → Item → Except String T)
    (required_fields : List String) (index : Nat) (item_data : Item) :
    Nat × (T ⊕ BulkCreateError) :=
  match itemOutcome create_func required_fields index item_data with
  | .ok created => (index, Sum.inl created)
  | .error e => (index, Sum.inr ⟨index, item_data, e⟩)

/-- The task list `[create_single(index, item_data) for index, item_data in
enumerate(items)]`, with enumeration starting at `index`. -/
def taskResultsFrom (create_func : Nat → Item → Except String T)
    (required_fields : List String) :
    Nat → List Item → List (Nat × (T ⊕ BulkCreateError))
  | _, [] => []
  | index, item_data :: rest =>
    createSingle create_func required_fields index item_data ::
      taskResultsFrom create_func required_fields (index + 1) rest

/-- The per-task results of `_process_bulk_async`, one per input item, in
input order (the order `asyncio.gather(*tasks)` returns them). -/
def taskResults (items : List Item)
    (create_func : Nat → Item → Except String T)
    (required_fields : List String) : List (Nat × (T ⊕ BulkCreateError)) :=
  taskResultsFrom create_func required_fields 0 items

/-- Model of `results_list.sort(key=lambda x: x[0])`: a stable sort of the gathered
`(index, outcome)` pairs by index. -/
def sortByIndex {α : Type} (l : List (Nat × α)) : List (Nat × α) :=
  l.insertionSort (fun a b => a.1 ≤ b.1)

/-- The partition loop of `_process_bulk_async`
(src/bloomy/utils/async_base_operations.py, lines 115-124): traverse the
sorted pairs, appending `BulkCreateError` outcomes to `failed` and all
others to `successful`. -/
def assembleResults : List (Nat × (T ⊕ BulkCreateError)) → BulkCreateResult T
  | [] => ⟨[], []⟩
  | (_, Sum.inl created) :: rest =>
    let r := assembleResults rest
    ⟨created :: r.successful, r.failed⟩
  | (_, Sum.inr e) :: rest =>
    let r := assembleResults rest
    ⟨r.successful, e :: r.failed⟩

/-- The tail of `_process_bulk_async` applied to an arbitrary gathering
`gathered` of the per-task results: sort by original index, then
partition.  Quantifying over every permutation `gathered` of
`taskResults` models every possible completion order of the tasks. -/
def processBulkAsyncGathered
    (gathered : List (Nat × (T ⊕ BulkCreateError))) : BulkCreateResult T :=
  assembleResults (sortByIndex gathered)

/-- Model of `AsyncBaseOperations._process_bulk_async`
(src/bloomy/utils/async_base_operations.py, lines 73-124), with the
gathered results in the task order `asyncio.gather` delivers them. -/
def processBulkAsync (items : List Item)
    (create_func : Nat → Item → Except String T)
    (required_fields : List String) : BulkCreateResult T :=
  processBulkAsyncGathered (taskResults items create_func required_fields)

/-- Entry of `_process_bulk_async` including the construction
`asyncio.Semaphore(max_concurrent)`: per the Python standard library,
`Semaphore.__init__` raises `ValueError("Semaphore initial value must be
>= 0")` when its argument is negative, before any task is created. -/
def processBulkAsyncChecked (items : List Item)
    (create_func : Nat → Item → Except String T)
    (required_fields : List String) (max_concurrent : Int) :
    Except String (BulkCreateResult T) :=
  if max_concurrent < 0 then
    .error "ValueError: Semaphore initial value must be >= 0"
  else
    .ok (processBulkAsync items create_func required_fields)

/-! ### Operational model of the semaphore discipline

`_process_bulk_async` schedules all tasks at once; each task's
`create_single` body is `async with semaphore: validate; await
create_func; …`.  We model each task's progress through that body as a
phase and the scheduler's freedom as a nondeterministic step relation.
`asyncio.Semaphore(k)` keeps an internal counter starting at `k`;
`acquire` suspends until the counter is positive and then decrements it;
leaving the `async with` block (normally or through an exception)
releases, incrementing the counter. -/

/-- Progress of one task through the body of `create_single`. -/
inductive TaskPhase where
  /-- scheduled, not yet past `async with semaphore` -/
  | pending
  /-- permit held, running `_validate_bulk_item` (create_func not yet invoked) -/
  | validating
  /-- permit held, awaiting `create_func(item_data)` -/
  | creating
  /-- outcome determined, permit released -/
  | done
deriving DecidableEq, Repr

/-- Global state of one run of `_process_bulk_async`: the semaphore's
internal counter and each task's phase. -/
structure ExecState where
  counter : Nat
  phases : List TaskPhase
deriving DecidableEq, Repr

/-- Does this phase hold a semaphore permit? -/
def holdsPermit (p : TaskPhase) : Bool :=
  decide (p = TaskPhase.validating) || decide (p = TaskPhase.creating)

/-- Is this phase executing `create_func` (the remote call)? -/
def isCreating (p : TaskPhase) : Bool :=
  decide (p = TaskPhase.creating)

/-- Number of tasks currently inside the `async with semaphore` block. -/
def countHolding (phases : List TaskPhase) : Nat :=
  phases.countP holdsPermit

/-- Number of tasks currently executing `create_func` (the remote call). -/
def countCreating (phases : List TaskPhase) : Nat :=
  phases.countP isCreating

/-- One scheduler step of the concurrent executor. -/
inductive SemStep : ExecState → ExecState → Prop where
  /-- task `i` passes `async with semaphore`: only possible while the
  counter is positive; decrements the counter. -/
  | acquire (i : Nat) (s : ExecState)
      (hp : s.phases.get? i = some TaskPhase.pending) (hc : 0 < s.counter) :
      SemStep s ⟨s.counter - 1, s.phases.set i TaskPhase.validating⟩
  /-- task `i`'s validation succeeded; it invokes `create_func` while still
  holding its permit. -/
  | startCreate (i : Nat) (s : ExecState)
      (hp : s.phases.get? i = some TaskPhase.validating) :
      SemStep s ⟨s.counter, s.phases.set i TaskPhase.creating⟩
  /-- task `i`'s validation raised; the `except` clause records the error
  and the `async with` exit releases the permit (create_func never ran). -/
  | failValidation (i : Nat) (s : ExecState)
      (hp : s.phases.get? i = some TaskPhase.validating) :
      SemStep s ⟨s.counter + 1, s.phases.set i TaskPhase.done⟩
  /-- task `i`'s `create_func` settled (success or exception); its outcome
  tuple is returned and the `async with` exit releases the permit. -/
  | settle (i : Nat) (s : ExecState)
      (hp : s.phases.get? i = some TaskPhase.creating) :
      SemStep s ⟨s.counter + 1, s.phases.set i TaskPhase.done⟩

/-- Initial state of a run over `n` items with `max_concurrent = k`:
counter at `k`, every task pending. -/
def initExecState (k n : Nat) : ExecState :=
  ⟨k, List.replicate n TaskPhase.pending⟩

/-! ### Identity resolver -/

/-- The `_user_id` cache of one `AsyncBaseOperations` instance
(src/bloomy/utils/abstract_operations.py, line 21). -/
structure AdapterState where
  user_id : Option Int
deriving DecidableEq, Repr

/-- Model of `AsyncBaseOperations.get_user_id`
(src/bloomy/utils/async_base_operations.py, lines 50-59).  `lookup` is the
outcome the external `users/mine` request (`_get_default_user_id`,
including `raise_for_status` and the `data["Id"]` extraction) would
produce if issued during this call.  Returns the call's result, the
post-call state and the number of external requests issued.  On a failed
lookup the exception propagates before the assignment to `_user_id`, so
the cache stays empty. -/
def get_user_id (s : AdapterState) (lookup : Except String Int) :
    Except String Int × AdapterState × Nat :=
  match s.user_id with
  | some uid => (.ok uid, s, 0)
  | none =>
    match lookup with
    | .ok uid => (.ok uid, ⟨some uid⟩, 1)
    | .error e => (.error e, s, 1)

/-- The `user_id` property setter
(src/bloomy/utils/async_base_operations.py, lines 45-48): explicit
assignment stores the value directly, bypassing resolution. -/
def set_user_id (_s : AdapterState) (value : Int) : AdapterState :=
  ⟨some value⟩

/-! ### Output characterisations used to state the claims -/

/-- The success payload of one `(index, outcome)` pair, if any. -/
def succOf {T : Type} (p : Nat × (T ⊕ BulkCreateError)) : Option T :=
  match p.2 with
  | Sum.inl created => some created
  | Sum.inr _ => none

/-- The failure payload of one `(index, outcome)` pair, if any. -/
def errOf {T : Type} (p : Nat × (T ⊕ BulkCreateError)) :
    Option BulkCreateError :=
  match p.2 with
  | Sum.inl _ => none
  | Sum.inr e => some e

/-- The created values of the items whose outcome succeeded, listed in
ascending order of original input index. -/
def successValues (items : List Item)
    (create_func : Nat → Item → Except String T)
    (required_fields : List String) : List T :=
  (taskResults items create_func required_fields).filterMap succOf

/-- The original input indices of the items whose outcome succeeded,
ascending. -/
def successIndices (items : List Item)
    (create_func : Nat → Item → Except String T)
    (required_fields : List String) : List Nat :=
  (taskResults items create_func required_fields).filterMap fun p =>
    match p.2 with
    | Sum.inl _ => some p.1
    | Sum.inr _ => none

/-- Pairs `(original index, created value)` for each succeeded item, in
ascending index order. -/
def successWithIndices (items : List Item)
    (create_func : Nat → Item → Except String T)
    (required_fields : List String) : List (Nat × T) :=
  (taskResults items create_func required_fields).filterMap fun p =>
    match p.2 with
    | Sum.inl created => some (p.1, created)
    | Sum.inr _ => none

section Lemmas

variable (create_func : Nat → Item → Except String T)
variable (required_fields : List String)

lemma createSingle_fst (index : Nat) (item_data : Item) :
    (createSingle create_func required_fields index item_data).1 = index := by
  unfold createSingle
  cases itemOutcome create_func required_fields index item_data <;> rfl

lemma taskResultsFrom_map_fst (i : Nat) (items : List Item) :
    (taskResultsFrom create_func required_fields i items).map Prod.fst =
      List.range' i items.length := by
  induction items generalizing i with
  | nil => rfl
  | cons a l ih =>
    simp [taskResultsFrom, List.range'_succ, createSingle_fst, ih]

lemma taskResultsFrom_pairwise_lt (i : Nat) (items : List Item) :
    (taskResultsFrom create_func required_fields i items).Pairwise
      (fun a b => a.1 < b.1) := by
  have h := List.pairwise_lt_range' i items.length 1
  rw [← taskResultsFrom_map_fst create_func required_fields i items] at h
  exact List.pairwise_map.mp h

instance instKeyLeTotal {α : Type} :
    IsTotal (Nat × α) (fun a b => a.1 ≤ b.1) :=
  ⟨fun a b => Nat.le_total a.1 b.1⟩

instance instKeyLeTrans {α : Type} :
    IsTrans (Nat × α) (fun a b => a.1 ≤ b.1) :=
  ⟨fun _ _ _ h1 h2 => le_trans h1 h2⟩

instance instKeyLtAntisymm {α : Type} :
    IsAntisymm (Nat × α) (fun a b => a.1 < b.1) :=
  ⟨fun _ _ h1 h2 => absurd h2 (Nat.lt_asymm h1)⟩

/-- Sorting any permutation of a strictly key-sorted pair list restores
that list: completion order cannot influence the post-sort sequence. -/
lemma sortByIndex_of_perm {α : Type} {g t : List (Nat × α)} (hg : g.Perm t)
    (ht : t.Pairwise (fun a b => a.1 < b.1)) : sortByIndex g = t := by
  have hperm : (sortByIndex g).Perm t :=
    (List.perm_insertionSort _ g).trans hg
  have hsorted : (sortByIndex g).Sorted (fun a b => a.1 ≤ b.1) :=
    List.sorted_insertionSort _ g
  have htne : t.Pairwise (fun a b => a.1 ≠ b.1) :=
    ht.imp fun h => Nat.ne_of_lt h
  have htnodup : (t.map Prod.fst).Nodup := List.pairwise_map.mpr htne
  have hmapperm : ((sortByIndex g).map Prod.fst).Perm (t.map Prod.fst) :=
    hperm.map Prod.fst
  have hnodup : ((sortByIndex g).map Prod.fst).Nodup :=
    hmapperm.nodup_iff.mpr htnodup
  have hne : (sortByIndex g).Pairwise (fun a b => a.1 ≠ b.1) :=
    List.pairwise_map.mp hnodup
  have hlt : (sortByIndex g).Pairwise (fun a b => a.1 < b.1) :=
    (hsorted.and hne).imp fun h => lt_of_le_of_ne h.1 h.2
  exact List.eq_of_perm_of_sorted hperm hlt ht

lemma assembleResults_taskResultsFrom (i : Nat) (items : List Item) :
    assembleResults (taskResultsFrom create_func required_fields i items) =
      processBulkSyncFrom create_func required_fields i items := by
  induction items generalizing i with
  | nil => rfl
  | cons a l ih =>
    simp only [taskResultsFrom, processBulkSyncFrom, createSingle]
    cases h : itemOutcome create_func required_fields i a <;>
      simp [assembleResults, ih]

/-- Main equivalence: however the tasks complete, the concurrent
executor's final value equals the sequential executor's. -/
lemma gathered_eq_sync (items : List Item)
    {g : List (Nat × (T ⊕ BulkCreateError))}
    (hg : g.Perm (taskResults items create_func required_fields)) :
    processBulkAsyncGathered g =
      processBulkSync items create_func required_fields := by
  unfold processBulkAsyncGathered processBulkSync
  rw [sortByIndex_of_perm hg
    (taskResultsFrom_pairwise_lt create_func required_fields 0 items)]
  exact assembleResults_taskResultsFrom create_func required_fields 0 items

lemma async_eq_sync (items : List Item) :
    processBulkAsync items create_func required_fields =
      processBulkSync items create_func required_fields :=
  gathered_eq_sync create_func required_fields items (List.Perm.refl _)

lemma assembleResults_eq (l : List (Nat × (T ⊕ BulkCreateError))) :
    assembleResults l = ⟨l.filterMap succOf, l.filterMap errOf⟩ := by
  induction l with
  | nil => rfl
  | cons p rest ih =>
    obtain ⟨k, o⟩ := p
    cases o <;> simp [assembleResults, succOf, errOf, ih]

lemma syncFrom_successful (i : Nat) (items : List Item) :
    (processBulkSyncFrom create_func required_fields i items).successful =
      (taskResultsFrom create_func required_fields i items).filterMap succOf := by
  rw [← assembleResults_taskResultsFrom, assembleResults_eq]

lemma syncFrom_failed (i : Nat) (items : List Item) :
    (processBulkSyncFrom create_func required_fields i items).failed =
      (taskResultsFrom create_func required_fields i items).filterMap errOf := by
  rw [← assembleResults_taskResultsFrom, assembleResults_eq]

lemma sync_successful (items : List Item) :
    (processBulkSync items create_func required_fields).successful =
      successValues items create_func required_fields :=
  syncFrom_successful create_func required_fields 0 items

lemma sync_failed (items : List Item) :
    (processBulkSync items create_func required_fields).failed =
      (taskResults items create_func required_fields).filterMap errOf :=
  syncFrom_failed create_func required_fields 0 items

lemma syncFrom_length (i : Nat) (items : List Item) :
    (processBulkSyncFrom create_func required_fields i items).successful.length +
      (processBulkSyncFrom create_func required_fields i items).failed.length =
      items.length := by
  induction items generalizing i with
  | nil => rfl
  | cons a l ih =>
    simp only [processBulkSyncFrom]
    cases h : itemOutcome create_func required_fields i a <;>
      · simp only [List.length_cons]
        have := ih (i + 1)
        omega

/-- Each original index lands in exactly one of the two output sides. -/
lemma cover_from (i : Nat) (items : List Item) :
    (((taskResultsFrom create_func required_fields i items).filterMap
        errOf).map BulkCreateError.index ++
      (taskResultsFrom create_func required_fields i items).filterMap
        (fun p => match p.2 with
          | Sum.inl _ => some p.1
          | Sum.inr _ => none)).Perm
      (List.range' i items.length) := by
  induction items generalizing i with
  | nil => rfl
  | cons a l ih =>
    simp only [taskResultsFrom, createSingle, List.range'_succ]
    cases h : itemOutcome create_func required_fields i a with
    | ok created =>
      simp only [List.filterMap_cons, errOf, succOf]
      exact List.perm_middle.trans ((ih (i + 1)).cons i)
    | error e =>
      simp only [List.filterMap_cons, errOf, succOf, List.map_cons,
        List.cons_append]
      exact (ih (i + 1)).cons i

lemma errOf_index_eq (i : Nat) (items : List Item) :
    ∀ p ∈ taskResultsFrom create_func required_fields i items,
      ∀ e ∈ errOf p, e.index = p.1 := by
  induction items generalizing i with
  | nil => intro p hp; simp [taskResultsFrom] at hp
  | cons a l ih =>
    intro p hp e he
    simp only [taskResultsFrom, List.mem_cons] at hp
    rcases hp with hp | hp
    · subst hp
      cases h : itemOutcome create_func required_fields i a with
      | ok created => simp [createSingle, h, errOf] at he
      | error msg =>
        simp [createSingle, h, errOf] at he ⊢
        subst he
        rfl
    · exact ih (i + 1) p hp e he

lemma failed_pairwise_lt (i : Nat) (items : List Item) :
    ((taskResultsFrom create_func required_fields i items).filterMap
        errOf).Pairwise (fun a b => a.index < b.index) := by
  rw [List.pairwise_filterMap]
  refine (taskResultsFrom_pairwise_lt create_func required_fields i
    items).imp_of_mem ?_
  intro p q hp hq hpq e he e' he'
  rw [errOf_index_eq create_func required_fields i items p hp e he,
    errOf_index_eq create_func required_fields i items q hq e' he']
  exact hpq

lemma successIndices_pairwise_lt (i : Nat) (items : List Item) :
    ((taskResultsFrom create_func required_fields i items).filterMap
        (fun p => match p.2 with
          | Sum.inl _ => some p.1
          | Sum.inr _ => none)).Pairwise (· < ·) := by
  rw [List.pairwise_filterMap]
  refine (taskResultsFrom_pairwise_lt create_func required_fields i
    items).imp_of_mem ?_
  intro p q _ _ hpq b hb b' hb'
  have hb1 : b = p.1 := by
    cases h : p.2 <;> simp [h] at hb
    simp [hb]
  have hb2 : b' = q.1 := by
    cases h : q.2 <;> simp [h] at hb'
    simp [hb']
  rw [hb1, hb2]
  exact hpq

lemma taskResultsFrom_errOf_enumFrom (i : Nat) (items : List Item) :
    (taskResultsFrom create_func required_fields i items).filterMap errOf =
      (List.enumFrom i items).filterMap (fun p =>
        match itemOutcome create_func required_fields p.1 p.2 with
        | .error msg => some ⟨p.1, p.2, msg⟩
        | .ok _ => none) := by
  induction items generalizing i with
  | nil => rfl
  | cons a l ih =>
    simp only [taskResultsFrom, List.enumFrom, List.filterMap_cons,
      createSingle]
    cases h : itemOutcome create_func required_fields i a <;>
      simp [errOf, h, ih]

lemma itemOutcome_congr {create_func' : Nat → Item → Except String T}
    (hcc : ∀ j item_data,
      validateBulkItem item_data required_fields = .ok () →
      create_func j item_data = create_func' j item_data)
    (j : Nat) (item_data : Item) :
    itemOutcome create_func required_fields j item_data =
      itemOutcome create_func' required_fields j item_data := by
  unfold itemOutcome
  cases h : validateBulkItem item_data required_fields with
  | error e => rfl
  | ok u =>
    cases u
    exact hcc j item_data h

lemma syncFrom_congr {create_func' : Nat → Item → Except String T}
    (hcc : ∀ j item_data,
      validateBulkItem item_data required_fields = .ok () →
      create_func j item_data = create_func' j item_data)
    (i : Nat) (items : List Item) :
    processBulkSyncFrom create_func required_fields i items =
      processBulkSyncFrom create_func' required_fields i items := by
  induction items generalizing i with
  | nil => rfl
  | cons a l ih =>
    simp only [processBulkSyncFrom,
      itemOutcome_congr create_func required_fields hcc i a, ih]

lemma itemOutcome_congr_ne {create_func' : Nat → Item → Except String T}
    {i : Nat}
    (hne : ∀ j item_data, j ≠ i →
      create_func j item_data = create_func' j item_data)
    (j : Nat) (item_data : Item) (hj : j ≠ i) :
    itemOutcome create_func required_fields j item_data =
      itemOutcome create_func' required_fields j item_data := by
  unfold itemOutcome
  cases validateBulkItem item_data required_fields with
  | error e => rfl
  | ok u => exact hne j item_data hj

lemma c9_failed_from {create_func' : Nat → Item → Except String T} {i : Nat}
    (hne : ∀ j item_data, j ≠ i →
      create_func j item_data = create_func' j item_data)
    (i0 : Nat) (items : List Item) :
    ((taskResultsFrom create_func required_fields i0 items).filterMap
        errOf).filter (fun e => e.index != i) =
      ((taskResultsFrom create_func' required_fields i0 items).filterMap
        errOf).filter (fun e => e.index != i) := by
  induction items generalizing i0 with
  | nil => rfl
  | cons a l ih =>
    simp only [taskResultsFrom, createSingle, List.filterMap_cons]
    by_cases hi : i0 = i
    · subst hi
      cases h1 : itemOutcome create_func required_fields i0 a <;>
        cases h2 : itemOutcome create_func' required_fields i0 a <;>
        simp [errOf, List.filter_cons, ih (i0 + 1)]
    · rw [itemOutcome_congr_ne create_func required_fields hne i0 a hi]
      cases h : itemOutcome create_func' required_fields i0 a <;>
        simp [errOf, List.filter_cons, ih (i0 + 1)]

lemma c9_success_from {create_func' : Nat → Item → Except String T} {i : Nat}
    (hne : ∀ j item_data, j ≠ i →
      create_func j item_data = create_func' j item_data)
    (i0 : Nat) (items : List Item) :
    ((taskResultsFrom create_func required_fields i0 items).filterMap
        (fun p => match p.2 with
          | Sum.inl created => some (p.1, created)
          | Sum.inr _ => none)).filter (fun p => p.1 != i) =
      ((taskResultsFrom create_func' required_fields i0 items).filterMap
        (fun p => match p.2 with
          | Sum.inl created => some (p.1, created)
          | Sum.inr _ => none)).filter (fun p => p.1 != i) := by
  induction items generalizing i0 with
  | nil => rfl
  | cons a l ih =>
    simp only [taskResultsFrom, createSingle, List.filterMap_cons]
    by_cases hi : i0 = i
    · subst hi
      cases h1 : itemOutcome create_func required_fields i0 a <;>
        cases h2 : itemOutcome create_func' required_fields i0 a <;>
        simp [List.filter_cons, ih (i0 + 1)]
    · rw [itemOutcome_congr_ne create_func required_fields hne i0 a hi]
      cases h : itemOutcome create_func' required_fields i0 a <;>
        simp [List.filter_cons, ih (i0 + 1)]

end Lemmas

section SemLemmas

lemma countP_set (f : TaskPhase → Bool) (ps : List TaskPhase) (i : Nat)
    (a b : TaskPhase) (h : ps.get? i = some a) :
    (ps.set i b).countP f + (if f a then 1 else 0) =
      ps.countP f + (if f b then 1 else 0) := by
  induction ps generalizing i with
  | nil => simp at h
  | cons x xs ih =>
    cases i with
    | zero =>
      simp only [List.get?_cons_zero, Option.some.injEq] at h
      subst h
      simp [List.set, List.countP_cons]
      omega
    | succ n =>
      simp only [List.get?_cons_succ] at h
      simp only [List.set, List.countP_cons]
      have := ih n h
      omega

lemma semStep_preserves {k : Nat} {s s' : ExecState} (hstep : SemStep s s')
    (hinv : s.counter + countHolding s.phases = k) :
    s'.counter + countHolding s'.phases = k := by
  cases hstep with
  | acquire i _ hp hc =>
    have hc2 := countP_set holdsPermit s.phases i _ TaskPhase.validating hp
    simp only [holdsPermit, decide_eq_true_eq] at hc2
    simp only [countHolding, holdsPermit] at hinv ⊢
    simp at hc2
    omega
  | startCreate i _ hp =>
    have hc2 := countP_set holdsPermit s.phases i _ TaskPhase.creating hp
    simp only [holdsPermit, decide_eq_true_eq] at hc2
    simp only [countHolding, holdsPermit] at hinv ⊢
    simp at hc2
    omega
  | failValidation i _ hp =>
    have hc2 := countP_set holdsPermit s.phases i _ TaskPhase.done hp
    simp only [holdsPermit, decide_eq_true_eq] at hc2
    simp only [countHolding, holdsPermit] at hinv ⊢
    simp at hc2
    omega
  | settle i _ hp =>
    have hc2 := countP_set holdsPermit s.phases i _ TaskPhase.done hp
    simp only [holdsPermit, decide_eq_true_eq] at hc2
    simp only [countHolding, holdsPermit] at hinv ⊢
    simp at hc2
    omega

lemma countHolding_replicate_pending (n : Nat) :
    countHolding (List.replicate n TaskPhase.pending) = 0 := by
  induction n with
  | zero => rfl
  | succ m ih =>
    simp only [List.replicate, countHolding, List.countP_cons] at ih ⊢
    simp [holdsPermit, ih]

lemma reachable_inv {k n : Nat} {s : ExecState}
    (h : Relation.ReflTransGen SemStep (initExecState k n) s) :
    s.counter + countHolding s.phases = k := by
  induction h with
  | refl => simp [initExecState, countHolding_replicate_pending]
  | tail _ hstep ih => exact semStep_preserves hstep ih

lemma countCreating_le_countHolding (ps : List TaskPhase) :
    countCreating ps ≤ countHolding ps := by
  refine List.countP_mono_left fun p _ hp => ?_
  simp only [isCreating, decide_eq_true_eq] at hp
  simp [holdsPermit, hp]

end SemLemmas

section MoreLemmas

variable (create_func : Nat → Item → Except String T)
variable (required_fields : List String)

lemma filterMap_pair_snd (l : List (Nat × (T ⊕ BulkCreateError))) :
    (l.filterMap (fun p => match p.2 with
      | Sum.inl created => some (p.1, created)
      | Sum.inr _ => none)).map Prod.snd = l.filterMap succOf := by
  induction l with
  | nil => rfl
  | cons p rest ih =>
    obtain ⟨k, o⟩ := p
    cases o <;> simp [succOf, ih]

lemma successWithIndices_map_snd (items : List Item) :
    (successWithIndices items create_func required_fields).map Prod.snd =
      successValues items create_func required_fields :=
  filterMap_pair_snd _

end MoreLemmas

/-! ## The claims -/

/-- C1: for every input list and every assignment of per-item outcomes,
both `_process_bulk_sync` and `_process_bulk_async` return a
`BulkCreateResult` with `|successful| + |failed| = |items|`, and every
input index `0..n-1` is accounted for exactly once: the indices carried
by the `failed` errors together with the indices of the succeeded items
are a permutation of `0..n-1`, and `successful` is exactly the list of
created values of the succeeded indices. -/
theorem c1_bulk_completeness {T : Type} (items : List Item)
    (create_func : Nat → Item → Except String T)
    (required_fields : List String) :
    (processBulkSync items create_func required_fields).successful.length +
        (processBulkSync items create_func required_fields).failed.length =
        items.length ∧
    (processBulkAsync items create_func required_fields).successful.length +
        (processBulkAsync items create_func required_fields).failed.length =
        items.length ∧
    ((processBulkSync items create_func required_fields).failed.map
        BulkCreateError.index ++
        successIndices items create_func required_fields).Perm
      (List.range items.length) ∧
    ((processBulkAsync items create_func required_fields).failed.map
        BulkCreateError.index ++
        successIndices items create_func required_fields).Perm
      (List.range items.length) ∧
    (processBulkSync items create_func required_fields).successful =
      successValues items create_func required_fields ∧
    (processBulkAsync items create_func required_fields).successful =
      successValues items create_func required_fields := by
  have hasync := async_eq_sync create_func required_fields items
  have hcov : ((processBulkSync items create_func required_fields).failed.map
      BulkCreateError.index ++
      successIndices items create_func required_fields).Perm
      (List.range items.length) := by
    rw [sync_failed, List.range_eq_range']
    exact cover_from create_func required_fields 0 items
  refine ⟨syncFrom_length create_func required_fields 0 items, ?_, hcov, ?_,
    sync_successful create_func required_fields items, ?_⟩
  · rw [hasync]
    exact syncFrom_length create_func required_fields 0 items
  · rw [hasync]
    exact hcov
  · rw [hasync]
    exact sync_successful create_func required_fields items

/-- C2: in the result of either executor, `failed` is sorted in strictly
ascending order of the recorded index, and `successful` lists the
succeeded items' created values in the relative order of their original
input indices (the succeeded indices are strictly increasing). -/
theorem c2_bulk_ordering {T : Type} (items : List Item)
    (create_func : Nat → Item → Except String T)
    (required_fields : List String) :
    (processBulkSync items create_func required_fields).failed.Pairwise
      (fun a b => a.index < b.index) ∧
    (processBulkAsync items create_func required_fields).failed.Pairwise
      (fun a b => a.index < b.index) ∧
    (processBulkSync items create_func required_fields).successful =
      successValues items create_func required_fields ∧
    (processBulkAsync items create_func required_fields).successful =
      successValues items create_func required_fields ∧
    (successIndices items create_func required_fields).Pairwise (· < ·) := by
  have hasync := async_eq_sync create_func required_fields items
  have hfail :
      (processBulkSync items create_func required_fields).failed.Pairwise
        (fun a b => a.index < b.index) := by
    rw [sync_failed]
    exact failed_pairwise_lt create_func required_fields 0 items
  refine ⟨hfail, ?_, sync_successful create_func required_fields items, ?_,
    successIndices_pairwise_lt create_func required_fields 0 items⟩
  · rw [hasync]
    exact hfail
  · rw [hasync]
    exact sync_successful create_func required_fields items

/-- C3: the concurrent executor is deterministic with respect to
scheduling: for any two gatherings of the per-task results (any two
completion orders, i.e. any two permutations of `taskResults`), the
assembled `BulkCreateResult`s are identical, and both equal the
sequential executor's result on the same inputs and outcomes. -/
theorem c3_async_deterministic {T : Type} (items : List Item)
    (create_func : Nat → Item → Except String T)
    (required_fields : List String)
    (g1 g2 : List (Nat × (T ⊕ BulkCreateError)))
    (h1 : g1.Perm (taskResults items create_func required_fields))
    (h2 : g2.Perm (taskResults items create_func required_fields)) :
    processBulkAsyncGathered g1 = processBulkAsyncGathered g2 ∧
    processBulkAsyncGathered g1 =
      processBulkSync items create_func required_fields := by
  have e1 := gathered_eq_sync create_func required_fields items h1
  have e2 := gathered_eq_sync create_func required_fields items h2
  exact ⟨e1.trans e2.symm, e1⟩

/-- Witness for C3: a two-item batch whose tasks complete in reversed
order produces the same result as the sequential executor. -/
theorem c3_async_deterministic_witness :
    processBulkAsyncGathered
        (taskResults [[("title", some (Val.s "A"))],
          [("title", some (Val.s "B"))]]
          (fun i _ => Except.ok i) ["title"]).reverse =
      processBulkSync [[("title", some (Val.s "A"))],
          [("title", some (Val.s "B"))]]
        (fun i _ => Except.ok i) ["title"] :=
  (c3_async_deterministic
    [[("title", some (Val.s "A"))], [("title", some (Val.s "B"))]]
    (fun i _ => Except.ok i) ["title"] _ _ (List.reverse_perm _)
    (List.Perm.refl _)).2

/-- C4: `_validate_bulk_item` fails with `f"{field} is required"` for
exactly the first required field, in `required_fields` order, whose
`item_data.get(field)` is `None` (key absent or stored value `None`),
and succeeds when no required field is missing; an empty string or a
zero value is not missing. -/
theorem c4_validator_first_missing (item_data : Item)
    (required_fields : List String) :
    (validateBulkItem item_data required_fields =
      match required_fields.find?
          (fun field => (dictGet item_data field).isNone) with
        | some field => .error (field ++ " is required")
        | none => .ok ()) ∧
    (∀ field, (dictGet item_data field).isNone ↔
      (item_data.lookup field = none ∨
        item_data.lookup field = some none)) ∧
    validateBulkItem [("title", some (Val.s ""))] ["title"] = .ok () ∧
    validateBulkItem [("count", some (Val.n 0))] ["count"] = .ok () ∧
    validateBulkItem [] ["title"] = .error "title is required" := by
  refine ⟨?_, ?_, rfl, rfl, rfl⟩
  · induction required_fields with
    | nil => rfl
    | cons field rest ih =>
      simp only [validateBulkItem, List.find?]
      by_cases h : (dictGet item_data field).isNone
      · simp [h]
      · simp only [h]
        rw [ih]
        simp [show (decide (dictGet item_data field).isNone = true) = false by
          simpa using h]
  · intro field
    unfold dictGet
    cases h : item_data.lookup field with
    | none => simp
    | some v => cases v <;> simp

/-- C5: in every execution of the concurrent executor with
`max_concurrent = k`, the number of tasks simultaneously executing
`create_func` never exceeds `k`: in any state reachable from the initial
state of a run (counter at `k`, every task pending) under the semaphore
step relation — which acquires a permit before `create_func` is invoked
and releases it only once the task's outcome is determined —
`countCreating` is at most `k`. -/
theorem c5_concurrency_bound (k n : Nat) (s : ExecState)
    (h : Relation.ReflTransGen SemStep (initExecState k n) s) :
    countCreating s.phases ≤ k := by
  have hinv := reachable_inv h
  have hle := countCreating_le_countHolding s.phases
  omega

/-- Witness for C5: with `max_concurrent = 1` and one item, after the
task acquires the permit and starts its remote call, at most one task is
creating. -/
theorem c5_concurrency_bound_witness :
    countCreating (⟨0, [TaskPhase.creating]⟩ : ExecState).phases ≤ 1 :=
  c5_concurrency_bound 1 1 _
    (Relation.ReflTransGen.tail
      (Relation.ReflTransGen.tail Relation.ReflTransGen.refl
        (SemStep.acquire 0 (initExecState 1 1) rfl (by decide)))
      (SemStep.startCreate 0 _ rfl))

/-- C6: neither executor lets a per-item error escape: both return a
`BulkCreateResult` whose `failed` list is exactly one `BulkCreateError`
per failing item, carrying that item's original index, the original
input mapping, and the stringified error message of the exception that
validation or `create_func` raised there. -/
theorem c6_errors_captured {T : Type} (items : List Item)
    (create_func : Nat → Item → Except String T)
    (required_fields : List String) :
    (processBulkSync items create_func required_fields).failed =
      items.enum.filterMap (fun p =>
        match itemOutcome create_func required_fields p.1 p.2 with
        | .error msg => some ⟨p.1, p.2, msg⟩
        | .ok _ => none) ∧
    (processBulkAsync items create_func required_fields).failed =
      items.enum.filterMap (fun p =>
        match itemOutcome create_func required_fields p.1 p.2 with
        | .error msg => some ⟨p.1, p.2, msg⟩
        | .ok _ => none) := by
  have hsync : (processBulkSync items create_func required_fields).failed =
      items.enum.filterMap (fun p =>
        match itemOutcome create_func required_fields p.1 p.2 with
        | .error msg => some ⟨p.1, p.2, msg⟩
        | .ok _ => none) := by
    rw [sync_failed]
    exact taskResultsFrom_errOf_enumFrom create_func required_fields 0 items
  refine ⟨hsync, ?_⟩
  rw [async_eq_sync]
  exact hsync

/-- C7: validation failure short-circuits an item: the executors' results
do not depend on what `create_func` would return at items that fail
validation (so `create_func` is never consulted there), and each item
that fails validation with message `e` contributes the error
`BulkCreateError(index, item_data, e)` to `failed` while the other items
are still processed. -/
theorem c7_validation_short_circuit {T : Type} (items : List Item)
    (required_fields : List String)
    (create_func create_func' : Nat → Item → Except String T)
    (hcc : ∀ j item_data,
      validateBulkItem item_data required_fields = .ok () →
      create_func j item_data = create_func' j item_data) :
    processBulkSync items create_func required_fields =
      processBulkSync items create_func' required_fields ∧
    processBulkAsync items create_func required_fields =
      processBulkAsync items create_func' required_fields ∧
    ∀ p ∈ items.enum, ∀ e,
      validateBulkItem p.2 required_fields = .error e →
      (⟨p.1, p.2, e⟩ : BulkCreateError) ∈
        (processBulkSync items create_func required_fields).failed := by
  have hsync : processBulkSync items create_func required_fields =
      processBulkSync items create_func' required_fields :=
    syncFrom_congr create_func required_fields hcc 0 items
  refine ⟨hsync, ?_, ?_⟩
  · rw [async_eq_sync, async_eq_sync]
    exact hsync
  · intro p hp e he
    rw [sync_failed]
    unfold taskResults
    rw [taskResultsFrom_errOf_enumFrom]
    rw [List.mem_filterMap]
    refine ⟨p, ?_, ?_⟩
    · simpa [List.enum] using hp
    · unfold itemOutcome
      rw [he]

/-- Witness for C7: an item missing its required `title` yields the same
result whether `create_func` would have succeeded there or raised. -/
theorem c7_validation_short_circuit_witness :
    processBulkSync [[("title", (none : Option Val))]]
        (fun _ _ => Except.ok (0 : Nat)) ["title"] =
      processBulkSync [[("title", (none : Option Val))]]
        (fun _ item_data =>
          if (dictGet item_data "title").isNone then Except.error "boom"
          else Except.ok 0) ["title"] :=
  (c7_validation_short_circuit [[("title", (none : Option Val))]] ["title"]
    (fun _ _ => Except.ok (0 : Nat))
    (fun _ item_data =>
      if (dictGet item_data "title").isNone then Except.error "boom"
      else Except.ok 0)
    (fun _ item_data h => by
      by_cases hd : (dictGet item_data "title").isNone
      · simp [validateBulkItem, hd] at h
      · simp [hd])).1

/-- C8: `get_user_id` issues the external lookup only when `_user_id` is
unset, caches a successful result so every later call answers from the
cache with zero external requests, lets a failed lookup propagate with
the cache left unset (so the next call issues the request again), and an
explicit assignment through the setter bypasses resolution. -/
theorem c8_identity_caching (s : AdapterState)
    (lookup lookup' : Except String Int) (uid value : Int) (e : String) :
    (s.user_id = some uid → get_user_id s lookup = (.ok uid, s, 0)) ∧
    (s.user_id = none → lookup = .ok uid →
      get_user_id s lookup = (.ok uid, ⟨some uid⟩, 1) ∧
      get_user_id ⟨some uid⟩ lookup' = (.ok uid, ⟨some uid⟩, 0)) ∧
    (s.user_id = none → lookup = .error e →
      get_user_id s lookup = (.error e, s, 1) ∧
      (get_user_id s lookup').2.2 = 1) ∧
    get_user_id (set_user_id s value) lookup =
      (.ok value, set_user_id s value, 0) := by
  obtain ⟨u⟩ := s
  refine ⟨?_, ?_, ?_, rfl⟩
  · intro h
    simp only [AdapterState.mk.injEq] at h ⊢
    subst h
    rfl
  · intro hu hl
    simp only at hu
    subst hu
    subst hl
    exact ⟨rfl, rfl⟩
  · intro hu hl
    simp only at hu
    subst hu
    subst hl
    refine ⟨rfl, ?_⟩
    cases lookup' <;> rfl

/-- Witness for C8: a cached identity answers without an external call; a
first call caches; a failed lookup propagates with the cache unset. -/
theorem c8_identity_caching_witness :
    get_user_id ⟨some 7⟩ (.error "net down") = (.ok 7, ⟨some 7⟩, 0) ∧
    get_user_id ⟨none⟩ (.ok 3) = (.ok 3, ⟨some 3⟩, 1) ∧
    get_user_id ⟨none⟩ (.error "net down") =
      (.error "net down", ⟨none⟩, 1) :=
  ⟨(c8_identity_caching ⟨some 7⟩ (.error "net down") (.ok 0) 7 0 "").1 rfl,
   ((c8_identity_caching ⟨none⟩ (.ok 3) (.ok 0) 3 0 "").2.1 rfl rfl).1,
   ((c8_identity_caching ⟨none⟩ (.error "net down") (.ok 0) 0 0
      "net down").2.2.1 rfl rfl).1⟩

/-- C9: item failures are isolated: if two per-item outcome functions
agree everywhere except at index `i`, then outside index `i` the two
runs' `failed` entries (index and content) and the two runs' succeeded
items (original index and created value, which determine `successful`)
coincide, for both executors. -/
theorem c9_isolation {T : Type} (items : List Item)
    (required_fields : List String)
    (create_func create_func' : Nat → Item → Except String T) (i : Nat)
    (hne : ∀ j item_data, j ≠ i →
      create_func j item_data = create_func' j item_data) :
    (processBulkSync items create_func required_fields).failed.filter
        (fun e => e.index != i) =
      (processBulkSync items create_func' required_fields).failed.filter
        (fun e => e.index != i) ∧
    (successWithIndices items create_func required_fields).filter
        (fun p => p.1 != i) =
      (successWithIndices items create_func' required_fields).filter
        (fun p => p.1 != i) ∧
    (processBulkSync items create_func required_fields).successful =
      (successWithIndices items create_func required_fields).map Prod.snd ∧
    (processBulkSync items create_func' required_fields).successful =
      (successWithIndices items create_func' required_fields).map
        Prod.snd ∧
    processBulkAsync items create_func required_fields =
      processBulkSync items create_func required_fields ∧
    processBulkAsync items create_func' required_fields =
      processBulkSync items create_func' required_fields := by
  refine ⟨?_, ?_, ?_, ?_,
    async_eq_sync create_func required_fields items,
    async_eq_sync create_func' required_fields items⟩
  · rw [sync_failed, sync_failed]
    exact c9_failed_from create_func required_fields hne 0 items
  · unfold successWithIndices taskResults
    exact c9_success_from create_func required_fields hne 0 items
  · rw [sync_successful, successWithIndices_map_snd]
  · rw [sync_successful, successWithIndices_map_snd]

/-- Witness for C9: making the middle item of a three-item batch fail
leaves the other items' failed entries unchanged. -/
theorem c9_isolation_witness :
    (processBulkSync [[("t", some (Val.n 1))], [("t", some (Val.n 2))],
        [("t", some (Val.n 3))]]
        (fun j _ => Except.ok j) ["t"]).failed.filter
        (fun e => e.index != 1) =
      (processBulkSync [[("t", some (Val.n 1))], [("t", some (Val.n 2))],
        [("t", some (Val.n 3))]]
        (fun j _ => if j = 1 then Except.error "boom" else Except.ok j)
        ["t"]).failed.filter (fun e => e.index != 1) :=
  (c9_isolation [[("t", some (Val.n 1))], [("t", some (Val.n 2))],
      [("t", some (Val.n 3))]] ["t"]
    (fun j _ => Except.ok j)
    (fun j _ => if j = 1 then Except.error "boom" else Except.ok j) 1
    (fun j _ hj => by simp [hj])).1

/-- C10: calling the concurrent executor with a negative
`max_concurrent` fails with the `ValueError` from the
`asyncio.Semaphore` construction, for every input list (empty or not),
before any item is consulted: the outcome is the same error whatever the
items, outcome function, or required fields, and no `BulkCreateResult`
is produced. -/
theorem c10_negative_max_concurrent {T : Type} (max_concurrent : Int)
    (h : max_concurrent < 0) (items items' : List Item)
    (create_func create_func' : Nat → Item → Except String T)
    (required_fields required_fields' : List String) :
    processBulkAsyncChecked items create_func required_fields
        max_concurrent =
      .error "ValueError: Semaphore initial value must be >= 0" ∧
    processBulkAsyncChecked items create_func required_fields
        max_concurrent =
      processBulkAsyncChecked items' create_func' required_fields'
        max_concurrent := by
  constructor <;> simp [processBulkAsyncChecked, h]

/-- Witness for C10: `max_concurrent = -1` on a one-item batch yields
the `ValueError`. -/
theorem c10_negative_max_concurrent_witness :
    processBulkAsyncChecked [[("title", some (Val.s "A"))]]
        (fun _ _ => Except.ok (0 : Nat)) ["title"] (-1) =
      .error "ValueError: Semaphore initial value must be >= 0" :=
  (c10_negative_max_concurrent (-1) (by norm_num)
    [[("title", some (Val.s "A"))]] []
    (fun _ _ => Except.ok (0 : Nat)) (fun _ _ => Except.ok 0)
    ["title"] []).1

end Bloomy
